import Mathlib

/-!
Shallow embedding of the ARCSI sensor pipeline (petebunting/arcsi) for
specification checking.  Numeric quantities are modelled over the rationals
(the Python code computes with IEEE doubles; every concrete value appearing
in the statements below is exactly representable and the operations involved
are exact at those values).  External collaborators (rsgislib raster algebra,
Py6S radiative transfer, GDAL, the filesystem) are modelled as opaque
parameters: the embedding captures the control flow and arithmetic of the
repository code itself.
-/

namespace Arcsi

/-! ## AOD search grid (estimateImageToAODUsingDDV / estimateImageToAODUsingDOS,
arcsisensorlandsat5tm.py lines 801-843 and 914-956).

Python source:
  numAOTValTests = int(math.ceil((aotValMax - aotValMin)/0.05))+1
  if not numAOTValTests >= 1: raise ARCSIException(...)
  for j in range(numAOTValTests):
      cAOT = aotValMin + (0.05 * j)
      cDist = self.run6SToOptimiseAODValue(cAOT, ...)
      if j == 0: minAOT = cAOT; minDist = cDist
      elif cDist < minDist: minAOT = cAOT; minDist = cDist
-/

/-- Embeds `numAOTValTests = int(math.ceil((aotValMax - aotValMin)/0.05))+1`. -/
def numAOTValTests (aotValMin aotValMax : ℚ) : ℤ :=
  ⌈(aotValMax - aotValMin) / (1 / 20 : ℚ)⌉ + 1

/-- Embeds the guard `if not numAOTValTests >= 1: raise ARCSIException("min and
max AOT range are too close together, they need to be at least 0.05 apart.")`;
`true` means the exception is raised. -/
def aodRangeCheckFails (aotValMin aotValMax : ℚ) : Bool :=
  ! decide (1 ≤ numAOTValTests aotValMin aotValMax)

/-- Embeds `cAOT = aotValMin + (0.05 * j)`, the j-th candidate AOD value. -/
def aotCandidate (aotValMin : ℚ) (j : ℕ) : ℚ :=
  aotValMin + (1 / 20) * j

/-- The list of candidate AOD values evaluated by the loop
`for j in range(numAOTValTests)` for one selected segment. -/
def aotCandidates (aotValMin aotValMax : ℚ) : List ℚ :=
  (List.range (numAOTValTests aotValMin aotValMax).toNat).map (aotCandidate aotValMin)

/-- One iteration of the AOD search loop body: state is the pair
`(minAOT, minDist)`; `rtDist` stands for the external collaborator call
`run6SToOptimiseAODValue` specialised to the current segment. -/
def aodSearchStep (rtDist : ℚ → ℚ) (aotValMin : ℚ) (st : ℚ × ℚ) (j : ℕ) : ℚ × ℚ :=
  let cAOT := aotCandidate aotValMin j
  let cDist := rtDist cAOT
  if j = 0 then (cAOT, cDist)
  else if cDist < st.2 then (cAOT, cDist)
  else st

/-- The whole AOD search loop for one selected segment; the initial state
`(0, 0)` embeds `minAOT = 0.0; minDist = 0.0` and is overwritten at `j = 0`. -/
def aodSearch (rtDist : ℚ → ℚ) (aotValMin : ℚ) (numTests : ℕ) : ℚ × ℚ :=
  (List.range numTests).foldl (aodSearchStep rtDist aotValMin) (0, 0)

/-- Per-segment AOD assignment: the loop body
`if PredictAOTFor[i] == 1: ... aotVals[i] = minAOT else: aotVals[i] = 0`.
A segment carries the RAT columns the loop reads, with the external
run6SToOptimiseAODValue collaborator specialised to the segment as `rtDist`. -/
structure AODSegment where
  predictAOTFor : ℤ
  easting : ℚ
  northing : ℚ
  rtDist : ℚ → ℚ

/-- Embeds the assignment of `aotVals[i]` for segment `i`. -/
def aotValForSegment (aotValMin : ℚ) (numTests : ℕ) (s : AODSegment) : ℚ :=
  if s.predictAOTFor = 1 then (aodSearch s.rtDist aotValMin numTests).1 else 0

/-- The argument tuple of the call
`self.interpolateImageFromPointData(inputTOAImage, Eastings, Northings,
aotVals, outputAOTImage, outFormat, interpSmoothing, True, 0.05)`. -/
structure InterpolationCall where
  eastings : List ℚ
  northings : List ℚ
  aotVals : List ℚ
  interpSmoothing : ℚ
  useMinThres : Bool
  minThresVal : ℚ

/-- Embeds the tail of estimateImageToAODUsingDDV / estimateImageToAODUsingDOS:
`Eastings = Eastings[PredictAOTFor!=0]`, `Northings = Northings[PredictAOTFor!=0]`,
`aotVals = aotVals[PredictAOTFor!=0]`, `interpSmoothing = 10.0`, and the
interpolator call with arguments `(..., interpSmoothing, True, 0.05)`. -/
def estimateAODInterpCall (aotValMin aotValMax : ℚ) (segs : List AODSegment) :
    InterpolationCall :=
  let numTests := (numAOTValTests aotValMin aotValMax).toNat
  let sel := segs.filter (fun s => decide (s.predictAOTFor ≠ 0))
  { eastings := sel.map (fun s => s.easting)
    northings := sel.map (fun s => s.northing)
    aotVals := sel.map (aotValForSegment aotValMin numTests)
    interpSmoothing := 10
    useMinThres := true
    minThresVal := 1 / 20 }

/-- A distance function realising the distances [3, 1, 1, 2] on the candidate
grid of aotValMin = 0.05 with four steps. -/
def exampleDistances : ℚ → ℚ := fun c =>
  if c = 1 / 20 then 3 else if c = 1 / 10 then 1 else if c = 3 / 20 then 1 else 2

/-- A selected segment (PredictAOTFor = 1) carrying `exampleDistances`. -/
def exampleSelectedSegment : AODSegment :=
  { predictAOTFor := 1, easting := 100, northing := 200, rtDist := exampleDistances }

/-- An unselected segment (PredictAOTFor = 0). -/
def exampleUnselectedSegment : AODSegment :=
  { predictAOTFor := 0, easting := 300, northing := 400, rtDist := exampleDistances }

/-! ## MTL header parsing (extractHeaderParameters,
arcsisensorlandsat5tm.py lines 150-157 / arcsisensorlandsat_tm.py lines 144-155).

Python source:
  for line in hFile:
      line = line.strip()
      if line:
          lineVals = line.split('=')
          if len(lineVals) == 2:
              if (lineVals[0].strip() != "GROUP") or (lineVals[0].strip() != "END_GROUP"):
                  headerParams[lineVals[0].strip()] = lineVals[1].strip().replace('"','')

The Python string primitives strip/split/replace are modelled character-wise
so they evaluate inside Lean. -/

/-- Model of the Python str.strip method: remove leading and trailing
whitespace. -/
def pyStrip (s : String) : String :=
  String.mk (((s.data.dropWhile Char.isWhitespace).reverse.dropWhile
    Char.isWhitespace).reverse)

/-- Helper for `pySplitChar`: split a character list at every occurrence of
`c`, keeping empty fields, with `acc` the reversed current field. -/
def splitCharAux (c : Char) : List Char → List Char → List (List Char)
  | [], acc => [acc.reverse]
  | x :: xs, acc =>
    if x = c then acc.reverse :: splitCharAux c xs []
    else splitCharAux c xs (x :: acc)

/-- Model of the Python str.split method with a one-character separator. -/
def pySplitChar (c : Char) (s : String) : List String :=
  (splitCharAux c s.data []).map String.mk

/-- Model of the Python expression value.replace(chr(34), empty string):
drop every double-quote character. -/
def pyRemoveQuotes (s : String) : String :=
  String.mk (s.data.filter (fun ch => ch ≠ '"'))

/-- Embeds the filter condition
`(lineVals[0].strip() != "GROUP") or (lineVals[0].strip() != "END_GROUP")`. -/
def headerFilterCond (key : String) : Bool :=
  (key != "GROUP") || (key != "END_GROUP")

/-- Embeds the processing of one header line: the dictionary is modelled as a
lookup function, updated exactly when the Python code stores into it. -/
def extractHeaderParamsStep (m : String → Option String) (line : String) :
    String → Option String :=
  let l := pyStrip line
  if l = "" then m
  else
    match pySplitChar '=' l with
    | [k, v] =>
      if headerFilterCond (pyStrip k) then
        fun x => if x = pyStrip k then some (pyRemoveQuotes (pyStrip v)) else m x
      else m
    | _ => m

/-- Embeds the header-reading loop over all lines of the MTL file. -/
def extractHeaderParams (lines : List String) : String → Option String :=
  lines.foldl extractHeaderParamsStep (fun _ => none)

/-! ## Scene geometry (extractHeaderParameters, arcsisensorlandsat5tm.py
lines 246-250 / arcsisensorlandsat_tm.py lines 291-301).

Python source:
  if not ((self.xTL == self.xBL) and (self.yTL == self.yTR) and
          (self.xTR == self.xBR) and (self.yBL == self.yBR)):
      raise ARCSIException("Image is not square in projected coordinates.")
  self.xCentre = self.xTL + ((self.xTR - self.xTL)/2)
  self.yCentre = self.yBR + ((self.yTL - self.yBR)/2)
-/

/-- The projected corner coordinates read from the header. -/
structure ProjCorners where
  xTL : ℚ
  yTL : ℚ
  xTR : ℚ
  yTR : ℚ
  xBL : ℚ
  yBL : ℚ
  xBR : ℚ
  yBR : ℚ

/-- Embeds the rectangularity check followed by the scene-centre computation;
an `Except.error` models the raised ARCSIException, which aborts the header
extraction before any scene centre is derived. -/
def resolveSceneCentre (c : ProjCorners) : Except String (ℚ × ℚ) :=
  if ¬ ((c.xTL = c.xBL) ∧ (c.yTL = c.yTR) ∧ (c.xTR = c.xBR) ∧ (c.yBL = c.yBR)) then
    Except.error "Image is not square in projected coordinates."
  else
    Except.ok (c.xTL + (c.xTR - c.xTL) / 2, c.yBR + (c.yTL - c.yBR) / 2)

/-- A valid axis-aligned rectangle of corner coordinates. -/
def exampleRectCorners : ProjCorners :=
  { xTL := 0, yTL := 10, xTR := 20, yTR := 10, xBL := 0, yBL := 0, xBR := 20, yBR := 0 }

/-- Corner coordinates violating the rectangle condition (xTL differs from
xBL). -/
def exampleSkewedCorners : ProjCorners :=
  { xTL := 0, yTL := 10, xTR := 20, yTR := 10, xBL := 1, yBL := 0, xBR := 20, yBR := 0 }

/-! ## Surface reflectance LUT caching (convertImageToSurfaceReflDEMElevLUT and
convertImageToSurfaceReflAOTDEMElevLUT, arcsisensorlandsat_tm.py lines
1313-1435 and 1437-1571).

Python source (elevation variant; the AOT variant is analogous with a nested
loop):
  if elevCoeffs is None:
      elev6SCoeffsLUT = self.buildElevation6SCoeffLUT(...)
      elevCoeffs = list()
      for elevLUT in elev6SCoeffsLUT:
          ... elevCoeffs.append(rsgislib.imagecalibration.ElevLUTFeat(...))
  rsgislib.imagecalibration.apply_6s_coeff_elev_lut_param(..., elevCoeffs)
  return outputImage, elevCoeffs

The builder buildElevation6SCoeffLUT lives in the sensor base class, outside
the analysed sources: it is modelled as an opaque result list together with
the number of radiative-transfer invocations performed while building it, and
the per-feature coefficient marshalling loop as a map with an opaque
marshalling function.  The final apply step invokes no radiative transfer.
The returned pair carries the elevCoeffs value returned to the caller and the
number of radiative-transfer invocations the call performed. -/

/-- Embeds convertImageToSurfaceReflDEMElevLUT restricted to its LUT cache
logic. -/
def convertImageToSurfaceReflDEMElevLUT {α β : Type} (builtLUT : List α)
    (buildRTCalls : ℕ) (marshal : α → β) (elevCoeffs : Option (List β)) :
    List β × ℕ :=
  match elevCoeffs with
  | some cs => (cs, 0)
  | none => (builtLUT.map marshal, buildRTCalls)

/-- Embeds convertImageToSurfaceReflAOTDEMElevLUT restricted to its LUT cache
logic; the built LUT nests AOT entries inside elevation entries. -/
def convertImageToSurfaceReflAOTDEMElevLUT {α β : Type}
    (builtLUT : List (ℚ × List α)) (buildRTCalls : ℕ) (marshal : α → β)
    (elevAOTCoeffs : Option (List (ℚ × List β))) : List (ℚ × List β) × ℕ :=
  match elevAOTCoeffs with
  | some cs => (cs, 0)
  | none => (builtLUT.map (fun p => (p.1, p.2.map marshal)), buildRTCalls)

/-! ## DDV target selection (findDDVTargets, arcsisensorlandsat5tm.py lines
719-755).

Python source:
  percentiles = rsgislib.imagecalc.bandPercentile(inputTOAImage, 0.05, 0)
  if percentiles[5] > 30:
      b6Thres = str(percentiles[5])
  else:
      b6Thres = "30.0"
  rsgislib.imagecalc.bandMath(thresImage,
      "(b6<" + b6Thres + ")&&(b6!=0)&&(((b4-b3)/(b4+b3))>0.1)?1:0", ...)
  rsgislib.segmentation.clump(...)
  rsgislib.segmentation.rmSmallClumps(thresImageClumps, ..., 100, outFormat)
  rsgislib.segmentation.relabelClumps(...)

The rsgislib calls are external collaborators; `swirPercentile` stands for
the value percentiles[5] the percentile computation returns for the SWIR band
(band 6). -/

/-- Embeds the threshold selection: percentiles[5] when above 30, else 30. -/
def ddvSWIRThreshold (swirPercentile : ℚ) : ℚ :=
  if swirPercentile > 30 then swirPercentile else 30

/-- Embeds the band-math expression
`(b6<thres)&&(b6!=0)&&(((b4-b3)/(b4+b3))>0.1)?1:0` at one pixel. -/
def ddvMaskPixel (b3 b4 b6 thres : ℚ) : Bool :=
  decide (b6 < thres) && decide (b6 ≠ 0) && decide ((b4 - b3) / (b4 + b3) > 1 / 10)

/-- Modelled from the spec: rsgislib.segmentation.rmSmallClumps is an external
collaborator that discards clumps below a minimum pixel count; the repository
code passes the minimum 100. -/
def ddvKeptClumps (clumpSizes : List ℕ) : List ℕ :=
  clumpSizes.filter (fun n => decide (100 ≤ n))

/-! ## Download CLI (runGoogleImgDwbld, bin/arcsidwnldgoog.py lines 83-109).

Python source:
  for file in fileLst:
      outFileName = os.path.basename(file)
      if overwrite or (not os.path.exists(os.path.join(outDIR, outFileName))):
          cmd = "gsutil " + multiStr + " cp -r " + file + " " + outDIR
          try:
              subprocess.call(cmd, shell=True)
          except OSError as e:
              failsLst.append(file)
          except Exception as e:
              failsLst.append(file)
      else:
          print("\tAlready Downloaded...")
      if not outFailLst is None:
          writeList2File(failsLst, outFailLst)

`alreadyDownloaded f` models the filesystem test on the basename of `f` in
the output directory, and `copyRaises f` models the copy invocation raising
an exception for `f`.  The second result component lists the successive
contents written to the failure-list file (applicable when a failure-list
path is supplied): one write per manifest entry. -/

/-- Outcome of handling one manifest entry. -/
inductive DwnldAction where
  | copied
  | copyFailed
  | skipped
deriving DecidableEq

/-- Embeds the body of the download loop for one entry: the updated failure
list and what happened to the entry. -/
def processEntry (overwrite : Bool) (alreadyDownloaded copyRaises : String → Bool)
    (failsLst : List String) (file : String) : List String × DwnldAction :=
  if overwrite || !(alreadyDownloaded file) then
    if copyRaises file then (failsLst ++ [file], DwnldAction.copyFailed)
    else (failsLst, DwnldAction.copied)
  else (failsLst, DwnldAction.skipped)

/-- An entry for which the loop records a failure: the copy is attempted and
raises. -/
def entryFails (overwrite : Bool) (alreadyDownloaded copyRaises : String → Bool)
    (file : String) : Bool :=
  (overwrite || !(alreadyDownloaded file)) && copyRaises file

/-- Embeds the download loop: final failure list and the successive
failure-list file contents, one write after each entry. -/
def runGoogleLoop (overwrite : Bool) (alreadyDownloaded copyRaises : String → Bool) :
    List String → List String → List String × List (List String)
  | failsLst, [] => (failsLst, [])
  | failsLst, file :: rest =>
    let st := processEntry overwrite alreadyDownloaded copyRaises failsLst file
    let res := runGoogleLoop overwrite alreadyDownloaded copyRaises st.1 rest
    (res.1, st.1 :: res.2)

/-- Embeds runGoogleImgDwbld: the loop starts from the empty failure list. -/
def runGoogleImgDwbld (overwrite : Bool)
    (alreadyDownloaded copyRaises : String → Bool) (fileLst : List String) :
    List String × List (List String) :=
  runGoogleLoop overwrite alreadyDownloaded copyRaises [] fileLst

/-! ## Unimplemented AOD estimation stubs (arcsisensorrapideye.py lines
335-337 and arcsisensorlandsat2mss.py lines 297-299).

Python source (identical in both classes):
  def estimateImageToAOD(self, inputTOAImage, outputPath, outputName, outFormat,
      tmpPath, aeroProfile, atmosProfile, grdRefl, surfaceAltitude, aotValMin,
      aotValMax):
      print("Not implemented\n")
      sys.exit()
-/

/-- Process outcome of a sensor method: a returned value, a raised
ARCSIException carrying a message, or process termination via sys.exit(). -/
inductive ProcOutcome (α : Type) where
  | returns : α → ProcOutcome α
  | raises : String → ProcOutcome α
  | exits : ProcOutcome α

/-- Embeds ARCSIRapidEyeSensor.estimateImageToAOD: the printed lines paired
with the process outcome. -/
def rapideyeEstimateImageToAOD (inputTOAImage outputPath outputName outFormat
    tmpPath aeroProfile atmosProfile grdRefl : String)
    (surfaceAltitude aotValMin aotValMax : ℚ) : List String × ProcOutcome String :=
  (["Not implemented\n"], ProcOutcome.exits)

/-- Embeds ARCSILandsat2MSSSensor.estimateImageToAOD. -/
def landsat2MSSEstimateImageToAOD (inputTOAImage outputPath outputName outFormat
    tmpPath aeroProfile atmosProfile grdRefl : String)
    (surfaceAltitude aotValMin aotValMax : ℚ) : List String × ProcOutcome String :=
  (["Not implemented\n"], ProcOutcome.exits)

end Arcsi

namespace Arcsi

lemma aodSearch_succ (rtDist : ℚ → ℚ) (mn : ℚ) (n : ℕ) :
    aodSearch rtDist mn (n + 1)
      = aodSearchStep rtDist mn (aodSearch rtDist mn n) n := by
  simp [aodSearch, List.range_succ]

lemma aodSearchStep_zero (rtDist : ℚ → ℚ) (mn : ℚ) (st : ℚ × ℚ) :
    aodSearchStep rtDist mn st 0
      = (aotCandidate mn 0, rtDist (aotCandidate mn 0)) := by
  simp [aodSearchStep]

lemma aodSearchStep_pos (rtDist : ℚ → ℚ) (mn : ℚ) (st : ℚ × ℚ) (j : ℕ)
    (hj : j ≠ 0) :
    aodSearchStep rtDist mn st j
      = if rtDist (aotCandidate mn j) < st.2
          then (aotCandidate mn j, rtDist (aotCandidate mn j))
          else st := by
  simp [aodSearchStep, hj]

/-- The loop keeps the first candidate whose distance is strictly below every
previously seen distance: the result is the first minimal-distance candidate. -/
lemma aodSearch_first_min (rtDist : ℚ → ℚ) (mn : ℚ) :
    ∀ n : ℕ, 1 ≤ n →
      ∃ k : ℕ, k < n ∧
        aodSearch rtDist mn n = (aotCandidate mn k, rtDist (aotCandidate mn k)) ∧
        (∀ j : ℕ, j < n → rtDist (aotCandidate mn k) ≤ rtDist (aotCandidate mn j)) ∧
        (∀ j : ℕ, j < k → rtDist (aotCandidate mn k) < rtDist (aotCandidate mn j)) := by
  intro n
  induction n with
  | zero => intro h; exact absurd h (by norm_num)
  | succ n ih =>
    intro _
    rcases Nat.eq_zero_or_pos n with h0 | hpos
    · subst h0
      refine ⟨0, Nat.zero_lt_one, ?_, ?_, ?_⟩
      · have : aodSearch rtDist mn 1 = aodSearchStep rtDist mn (0, 0) 0 := by
          rw [aodSearch, show List.range 1 = [0] from rfl]
          simp only [List.foldl_cons, List.foldl_nil]
        rw [this, aodSearchStep_zero]
      · intro j hj
        interval_cases j
        exact le_refl _
      · intro j hj
        exact absurd hj (Nat.not_lt_zero j)
    · obtain ⟨k, hk, heq, hmin, hstrict⟩ := ih hpos
      have hstep : aodSearch rtDist mn (n + 1)
          = aodSearchStep rtDist mn
              (aotCandidate mn k, rtDist (aotCandidate mn k)) n := by
        rw [aodSearch_succ, heq]
      rw [aodSearchStep_pos rtDist mn _ n (Nat.pos_iff_ne_zero.mp hpos)] at hstep
      by_cases hlt : rtDist (aotCandidate mn n) < rtDist (aotCandidate mn k)
      · refine ⟨n, Nat.lt_succ_self n, ?_, ?_, ?_⟩
        · rw [hstep, if_pos hlt]
        · intro j hj
          rcases Nat.lt_succ_iff_lt_or_eq.mp hj with hj | hj
          · exact le_of_lt (lt_of_lt_of_le hlt (hmin j hj))
          · subst hj; exact le_refl _
        · intro j hj
          exact lt_of_lt_of_le hlt (hmin j hj)
      · refine ⟨k, Nat.lt_succ_of_lt hk, ?_, ?_, ?_⟩
        · rw [hstep, if_neg hlt]
        · intro j hj
          rcases Nat.lt_succ_iff_lt_or_eq.mp hj with hj | hj
          · exact hmin j hj
          · subst hj; exact le_of_not_lt hlt
        · exact hstrict

/-- Evaluation of the AOD search on the distances [3, 1, 1, 2] over the
candidate grid 0.05, 0.10, 0.15, 0.20. -/
lemma aodSearch_exampleDistances :
    aodSearch exampleDistances (1 / 20) 4 = (1 / 10, 1) := by
  have s0 : aodSearchStep exampleDistances (1 / 20) (0, 0) 0 = (1 / 20, 3) := by
    rw [aodSearchStep_zero]
    norm_num [aotCandidate, exampleDistances]
  have s1 : aodSearchStep exampleDistances (1 / 20) (1 / 20, 3) 1 = (1 / 10, 1) := by
    rw [aodSearchStep_pos _ _ _ 1 one_ne_zero]
    norm_num [aotCandidate, exampleDistances]
  have s2 : aodSearchStep exampleDistances (1 / 20) (1 / 10, 1) 2 = (1 / 10, 1) := by
    rw [aodSearchStep_pos _ _ _ 2 two_ne_zero]
    norm_num [aotCandidate, exampleDistances]
  have s3 : aodSearchStep exampleDistances (1 / 20) (1 / 10, 1) 3 = (1 / 10, 1) := by
    rw [aodSearchStep_pos _ _ _ 3 three_ne_zero]
    norm_num [aotCandidate, exampleDistances]
  show List.foldl (aodSearchStep exampleDistances (1 / 20)) (0, 0) (List.range 4) = _
  rw [show List.range 4 = [0, 1, 2, 3] from rfl]
  simp only [List.foldl_cons, List.foldl_nil]
  rw [s0, s1, s2, s3]

/-- C1: In the AOD search of estimateImageToAODUsingDDV and
estimateImageToAODUsingDOS, for every aotValMin and aotValMax the number of
candidate AOD values tested per selected segment equals
ceil((aotValMax - aotValMin)/0.05) + 1, the j-th candidate equals
aotValMin + 0.05*j, and in particular for aotValMin = 0.05 and
aotValMax = 0.25 exactly the five candidates [0.05, 0.10, 0.15, 0.20, 0.25]
are evaluated. -/
theorem aod_candidate_grid_spec (mn mx : ℚ) (hn : 1 ≤ numAOTValTests mn mx) :
    ((aotCandidates mn mx).length : ℤ) = ⌈(mx - mn) / (1 / 20 : ℚ)⌉ + 1 ∧
    (∀ j : ℕ, j < (aotCandidates mn mx).length →
      (aotCandidates mn mx)[j]? = some (mn + (1 / 20) * (j : ℚ))) ∧
    aotCandidates (1 / 20) (1 / 4) = [1 / 20, 1 / 10, 3 / 20, 1 / 5, 1 / 4] := by
  have h0 : 0 ≤ numAOTValTests mn mx := le_trans (by norm_num) hn
  refine ⟨?_, ?_, ?_⟩
  · simp only [aotCandidates, List.length_map, List.length_range]
    rw [Int.toNat_of_nonneg h0]
    rfl
  · intro j hj
    simp only [aotCandidates, List.length_map, List.length_range] at hj
    simp [aotCandidates, aotCandidate, hj]
  · have hc : ⌈((1 / 4 : ℚ) - 1 / 20) / (1 / 20 : ℚ)⌉ = 4 := by
      exact Int.ceil_eq_iff.mpr (by norm_num)
    have h5 : numAOTValTests (1 / 20) (1 / 4) = 5 := by
      rw [numAOTValTests, hc]; rfl
    rw [aotCandidates, h5]
    show List.map (aotCandidate (1 / 20)) [0, 1, 2, 3, 4] = _
    simp [aotCandidate]
    norm_num

/-- Witness for C1 at aotValMin = 0.05, aotValMax = 0.25. -/
theorem aod_candidate_grid_spec_witness :
    ((aotCandidates (1 / 20) (1 / 4)).length : ℤ) =
      ⌈((1 / 4 : ℚ) - 1 / 20) / (1 / 20 : ℚ)⌉ + 1 ∧
    (∀ j : ℕ, j < (aotCandidates (1 / 20) (1 / 4)).length →
      (aotCandidates (1 / 20) (1 / 4))[j]? = some ((1 / 20 : ℚ) + (1 / 20) * (j : ℚ))) ∧
    aotCandidates (1 / 20) (1 / 4) = [1 / 20, 1 / 10, 3 / 20, 1 / 5, 1 / 4] :=
  aod_candidate_grid_spec (1 / 20) (1 / 4) (by
    rw [numAOTValTests, show ⌈((1 / 4 : ℚ) - 1 / 20) / (1 / 20 : ℚ)⌉ = 4 from
      Int.ceil_eq_iff.mpr (by norm_num)]
    norm_num)

/-- C3, code evaluation at the failing input: with aotValMin = 0.10 and
aotValMax = 0.12 the range is narrower than one 0.05 step, yet the guard in
estimateImageToAODUsingDDV/DOS computes numAOTValTests = 2 and does not raise
the SearchRangeTooNarrow exception, contradicting the exception message
"they need to be at least 0.05 apart". -/
theorem narrow_range_check_not_triggered :
    ((3 / 25 : ℚ) - 1 / 10 < 1 / 20) ∧
    numAOTValTests (1 / 10) (3 / 25) = 2 ∧
    aodRangeCheckFails (1 / 10) (3 / 25) = false := by
  have hc : ⌈((3 / 25 : ℚ) - 1 / 10) / (1 / 20 : ℚ)⌉ = 1 := by
    exact Int.ceil_eq_iff.mpr (by norm_num)
  have h2 : numAOTValTests (1 / 10) (3 / 25) = 2 := by rw [numAOTValTests, hc]; rfl
  refine ⟨by norm_num, h2, ?_⟩
  rw [aodRangeCheckFails, h2]
  rfl

/-- C2: For every selected segment (PredictAOTFor == 1) the AOD search assigns
the first minimal-distance candidate in ascending-AOD order (updates use
strict <, so the first minimum wins exact ties; distances [3,1,1,2] on
candidates [0.05,0.10,0.15,0.20] yield AOD 0.10); every unselected segment is
assigned AOD = 0; and only the selected segments Easting/Northing/AOD triples
are passed to the spatial interpolator, with smoothing 10.0 and output floor
0.05. -/
theorem aod_search_first_min_selection (mn mx : ℚ) (segs : List AODSegment)
    (hbin : ∀ s ∈ segs, s.predictAOTFor = 0 ∨ s.predictAOTFor = 1)
    (hn : 1 ≤ numAOTValTests mn mx) :
    (∀ s ∈ segs, s.predictAOTFor = 1 →
      ∃ k : ℕ, (k : ℤ) < numAOTValTests mn mx ∧
        aotValForSegment mn (numAOTValTests mn mx).toNat s = aotCandidate mn k ∧
        (∀ j : ℕ, (j : ℤ) < numAOTValTests mn mx →
          s.rtDist (aotCandidate mn k) ≤ s.rtDist (aotCandidate mn j)) ∧
        (∀ j : ℕ, j < k → s.rtDist (aotCandidate mn k) < s.rtDist (aotCandidate mn j))) ∧
    (∀ s ∈ segs, s.predictAOTFor ≠ 1 →
      aotValForSegment mn (numAOTValTests mn mx).toNat s = 0) ∧
    (aodSearch exampleDistances (1 / 20) 4).1 = 1 / 10 ∧
    (estimateAODInterpCall mn mx segs).eastings
      = (segs.filter (fun s => decide (s.predictAOTFor = 1))).map (fun s => s.easting) ∧
    (estimateAODInterpCall mn mx segs).northings
      = (segs.filter (fun s => decide (s.predictAOTFor = 1))).map (fun s => s.northing) ∧
    (estimateAODInterpCall mn mx segs).aotVals
      = (segs.filter (fun s => decide (s.predictAOTFor = 1))).map
          (aotValForSegment mn (numAOTValTests mn mx).toNat) ∧
    (estimateAODInterpCall mn mx segs).interpSmoothing = 10 ∧
    (estimateAODInterpCall mn mx segs).useMinThres = true ∧
    (estimateAODInterpCall mn mx segs).minThresVal = 1 / 20 := by
  have htests : 1 ≤ (numAOTValTests mn mx).toNat := by omega
  have hfilter : segs.filter (fun s => decide (s.predictAOTFor ≠ 0))
      = segs.filter (fun s => decide (s.predictAOTFor = 1)) := by
    refine List.filter_congr ?_
    intro s hs
    rcases hbin s hs with h | h <;> simp [h]
  refine ⟨?_, ?_, ?_, ?_, ?_, ?_, rfl, rfl, rfl⟩
  · intro s hs hsel
    obtain ⟨k, hk, heq, hmin, hstrict⟩ :=
      aodSearch_first_min s.rtDist mn (numAOTValTests mn mx).toNat htests
    refine ⟨k, by omega, ?_, ?_, hstrict⟩
    · rw [aotValForSegment, if_pos hsel, heq]
    · intro j hj
      exact hmin j (by omega)
  · intro s _ hsel
    rw [aotValForSegment, if_neg hsel]
  · rw [aodSearch_exampleDistances]
  · show List.map _ (segs.filter (fun s => decide (s.predictAOTFor ≠ 0))) = _
    rw [hfilter]
  · show List.map _ (segs.filter (fun s => decide (s.predictAOTFor ≠ 0))) = _
    rw [hfilter]
  · show List.map _ (segs.filter (fun s => decide (s.predictAOTFor ≠ 0))) = _
    rw [hfilter]

/-- Witness for C2 on a two-segment scene: one selected segment realising the
distances [3,1,1,2] (assigned AOD 0.10) and one unselected segment, with
aotValMin = 0.05 and aotValMax = 0.20. -/
theorem aod_search_first_min_selection_witness :
    (∀ s ∈ [exampleSelectedSegment, exampleUnselectedSegment], s.predictAOTFor = 1 →
      ∃ k : ℕ, (k : ℤ) < numAOTValTests (1 / 20) (1 / 5) ∧
        aotValForSegment (1 / 20) (numAOTValTests (1 / 20) (1 / 5)).toNat s
          = aotCandidate (1 / 20) k ∧
        (∀ j : ℕ, (j : ℤ) < numAOTValTests (1 / 20) (1 / 5) →
          s.rtDist (aotCandidate (1 / 20) k) ≤ s.rtDist (aotCandidate (1 / 20) j)) ∧
        (∀ j : ℕ, j < k →
          s.rtDist (aotCandidate (1 / 20) k) < s.rtDist (aotCandidate (1 / 20) j))) ∧
    (∀ s ∈ [exampleSelectedSegment, exampleUnselectedSegment], s.predictAOTFor ≠ 1 →
      aotValForSegment (1 / 20) (numAOTValTests (1 / 20) (1 / 5)).toNat s = 0) ∧
    (aodSearch exampleDistances (1 / 20) 4).1 = 1 / 10 ∧
    (estimateAODInterpCall (1 / 20) (1 / 5)
        [exampleSelectedSegment, exampleUnselectedSegment]).eastings
      = (([exampleSelectedSegment, exampleUnselectedSegment]).filter
          (fun s => decide (s.predictAOTFor = 1))).map (fun s => s.easting) ∧
    (estimateAODInterpCall (1 / 20) (1 / 5)
        [exampleSelectedSegment, exampleUnselectedSegment]).northings
      = (([exampleSelectedSegment, exampleUnselectedSegment]).filter
          (fun s => decide (s.predictAOTFor = 1))).map (fun s => s.northing) ∧
    (estimateAODInterpCall (1 / 20) (1 / 5)
        [exampleSelectedSegment, exampleUnselectedSegment]).aotVals
      = (([exampleSelectedSegment, exampleUnselectedSegment]).filter
          (fun s => decide (s.predictAOTFor = 1))).map
            (aotValForSegment (1 / 20) (numAOTValTests (1 / 20) (1 / 5)).toNat) ∧
    (estimateAODInterpCall (1 / 20) (1 / 5)
        [exampleSelectedSegment, exampleUnselectedSegment]).interpSmoothing = 10 ∧
    (estimateAODInterpCall (1 / 20) (1 / 5)
        [exampleSelectedSegment, exampleUnselectedSegment]).useMinThres = true ∧
    (estimateAODInterpCall (1 / 20) (1 / 5)
        [exampleSelectedSegment, exampleUnselectedSegment]).minThresVal = 1 / 20 :=
  aod_search_first_min_selection (1 / 20) (1 / 5)
    [exampleSelectedSegment, exampleUnselectedSegment]
    (by
      intro s hs
      rcases List.mem_cons.mp hs with h | hs
      · subst h; right; rfl
      · rcases List.mem_cons.mp hs with h | hs
        · subst h; left; rfl
        · cases hs)
    (by
      rw [numAOTValTests, show ⌈((1 / 5 : ℚ) - 1 / 20) / (1 / 20 : ℚ)⌉ = 3 from
        Int.ceil_eq_iff.mpr (by norm_num)]
      norm_num)

lemma headerFilterCond_eq_true (key : String) : headerFilterCond key = true := by
  by_cases h : key = "GROUP"
  · subst h; decide
  · simp [headerFilterCond, h]

/-- C4: The filter condition
`(lineVals[0].strip() != "GROUP") or (lineVals[0].strip() != "END_GROUP")`
evaluates to true for every possible key string, so every non-empty header
line that splits on the equals sign into exactly two parts is stored in the
parameter map, including lines whose key is GROUP or END_GROUP. -/
theorem header_group_filter_tautology :
    (∀ key : String, headerFilterCond key = true) ∧
    (∀ (m : String → Option String) (line k v : String),
      pyStrip line ≠ "" → pySplitChar '=' (pyStrip line) = [k, v] →
      extractHeaderParamsStep m line (pyStrip k) = some (pyRemoveQuotes (pyStrip v))) ∧
    extractHeaderParams ["GROUP = L1_METADATA_FILE"] "GROUP"
      = some "L1_METADATA_FILE" := by
  refine ⟨headerFilterCond_eq_true, ?_, ?_⟩
  · intro m line k v h1 h2
    rw [extractHeaderParamsStep]
    simp only [if_neg h1, h2, headerFilterCond_eq_true (pyStrip k), if_pos, if_true]
  · decide

/-- Witness for C4: a GROUP line is stored rather than filtered out. -/
theorem header_group_filter_tautology_witness :
    headerFilterCond "GROUP" = true ∧
    extractHeaderParamsStep (fun _ => none) "GROUP = L1_METADATA_FILE" "GROUP"
      = some "L1_METADATA_FILE" := by
  refine ⟨header_group_filter_tautology.1 "GROUP", ?_⟩
  have h2 := header_group_filter_tautology.2.1 (fun _ => none)
    "GROUP = L1_METADATA_FILE" "GROUP " " L1_METADATA_FILE" (by decide) (by decide)
  rw [show pyStrip "GROUP " = "GROUP" from by decide] at h2
  rw [show pyRemoveQuotes (pyStrip " L1_METADATA_FILE") = "L1_METADATA_FILE" from
    by decide] at h2
  exact h2

/-- C5: For every scene whose projected corner coordinates satisfy the
rectangularity condition, header extraction computes the scene centre exactly
as xCentre = xTL + (xTR - xTL)/2 and yCentre = yBR + (yTL - yBR)/2. -/
theorem scene_centre_formula (c : ProjCorners)
    (h : c.xTL = c.xBL ∧ c.yTL = c.yTR ∧ c.xTR = c.xBR ∧ c.yBL = c.yBR) :
    resolveSceneCentre c
      = Except.ok (c.xTL + (c.xTR - c.xTL) / 2, c.yBR + (c.yTL - c.yBR) / 2) := by
  rw [resolveSceneCentre, if_neg (not_not_intro h)]

/-- Witness for C5 on a concrete rectangular corner set. -/
theorem scene_centre_formula_witness :
    resolveSceneCentre exampleRectCorners
      = Except.ok (exampleRectCorners.xTL
          + (exampleRectCorners.xTR - exampleRectCorners.xTL) / 2,
        exampleRectCorners.yBR
          + (exampleRectCorners.yTL - exampleRectCorners.yBR) / 2) :=
  scene_centre_formula exampleRectCorners ⟨rfl, rfl, rfl, rfl⟩

/-- C6: For every header whose projected corner coordinates violate the
axis-aligned rectangle condition, extractHeaderParameters raises the fatal
error "Image is not square in projected coordinates." and does not produce a
scene centre. -/
theorem nonrect_corners_rejected (c : ProjCorners)
    (h : ¬ (c.xTL = c.xBL ∧ c.yTL = c.yTR ∧ c.xTR = c.xBR ∧ c.yBL = c.yBR)) :
    resolveSceneCentre c
      = Except.error "Image is not square in projected coordinates." ∧
    ∀ p : ℚ × ℚ, resolveSceneCentre c ≠ Except.ok p := by
  have he : resolveSceneCentre c
      = Except.error "Image is not square in projected coordinates." := by
    rw [resolveSceneCentre, if_pos h]
  refine ⟨he, fun p hp => ?_⟩
  rw [he] at hp
  cases hp

/-- Witness for C6 on a concrete skewed corner set. -/
theorem nonrect_corners_rejected_witness :
    resolveSceneCentre exampleSkewedCorners
      = Except.error "Image is not square in projected coordinates." ∧
    ∀ p : ℚ × ℚ, resolveSceneCentre exampleSkewedCorners ≠ Except.ok p :=
  nonrect_corners_rejected exampleSkewedCorners (by
    intro h
    have h1 : (0 : ℚ) = 1 := h.1
    norm_num at h1)

/-- C7: When a non-None elevCoeffs (resp. elevAOTCoeffs) cache is supplied,
the lookup table is not rebuilt, no radiative-transfer invocations occur, and
the supplied cache is used as-is and returned unchanged; when None is
supplied, the table is built once and returned, so a second call passing the
returned cache performs no further radiative-transfer invocations. -/
theorem lut_cache_reuse {α β : Type} (builtLUT : List α)
    (builtAOTLUT : List (ℚ × List α)) (buildRTCalls buildAOTRTCalls : ℕ)
    (marshal : α → β) :
    (∀ cs : List β,
      convertImageToSurfaceReflDEMElevLUT builtLUT buildRTCalls marshal (some cs)
        = (cs, 0)) ∧
    (convertImageToSurfaceReflDEMElevLUT builtLUT buildRTCalls marshal none).2
      = buildRTCalls ∧
    convertImageToSurfaceReflDEMElevLUT builtLUT buildRTCalls marshal
        (some (convertImageToSurfaceReflDEMElevLUT builtLUT buildRTCalls
          marshal none).1)
      = ((convertImageToSurfaceReflDEMElevLUT builtLUT buildRTCalls
          marshal none).1, 0) ∧
    (∀ cs : List (ℚ × List β),
      convertImageToSurfaceReflAOTDEMElevLUT builtAOTLUT buildAOTRTCalls marshal
        (some cs) = (cs, 0)) ∧
    (convertImageToSurfaceReflAOTDEMElevLUT builtAOTLUT buildAOTRTCalls marshal
      none).2 = buildAOTRTCalls ∧
    convertImageToSurfaceReflAOTDEMElevLUT builtAOTLUT buildAOTRTCalls marshal
        (some (convertImageToSurfaceReflAOTDEMElevLUT builtAOTLUT buildAOTRTCalls
          marshal none).1)
      = ((convertImageToSurfaceReflAOTDEMElevLUT builtAOTLUT buildAOTRTCalls
          marshal none).1, 0) :=
  ⟨fun _ => rfl, rfl, rfl, fun _ => rfl, rfl, rfl⟩

/-- Witness for C7 at concrete lookup tables. -/
theorem lut_cache_reuse_witness :
    (∀ cs : List ℚ,
      convertImageToSurfaceReflDEMElevLUT [(1 : ℚ), 2] 6 id (some cs) = (cs, 0)) ∧
    (convertImageToSurfaceReflDEMElevLUT [(1 : ℚ), 2] 6 id none).2 = 6 ∧
    convertImageToSurfaceReflDEMElevLUT [(1 : ℚ), 2] 6 id
        (some (convertImageToSurfaceReflDEMElevLUT [(1 : ℚ), 2] 6 id none).1)
      = ((convertImageToSurfaceReflDEMElevLUT [(1 : ℚ), 2] 6 id none).1, 0) ∧
    (∀ cs : List (ℚ × List ℚ),
      convertImageToSurfaceReflAOTDEMElevLUT [((0 : ℚ), [(1 : ℚ)])] 12 id (some cs)
        = (cs, 0)) ∧
    (convertImageToSurfaceReflAOTDEMElevLUT [((0 : ℚ), [(1 : ℚ)])] 12 id none).2
      = 12 ∧
    convertImageToSurfaceReflAOTDEMElevLUT [((0 : ℚ), [(1 : ℚ)])] 12 id
        (some (convertImageToSurfaceReflAOTDEMElevLUT [((0 : ℚ), [(1 : ℚ)])] 12 id
          none).1)
      = ((convertImageToSurfaceReflAOTDEMElevLUT [((0 : ℚ), [(1 : ℚ)])] 12 id
          none).1, 0) :=
  lut_cache_reuse [(1 : ℚ), 2] [((0 : ℚ), [(1 : ℚ)])] 6 12 id

/-- C8: In findDDVTargets the SWIR threshold equals the maximum of 30.0 and
the SWIR percentile value computed from the TOA image; the thresholded mask
additionally requires SWIR distinct from 0 and the NDVI-like index
(b4-b3)/(b4+b3) above 0.1; and clumps with fewer than 100 pixels are
discarded before relabelling. -/
theorem ddv_target_selection_spec (swirPercentile b3 b4 b6 : ℚ)
    (clumpSizes : List ℕ) :
    ddvSWIRThreshold swirPercentile = max 30 swirPercentile ∧
    (ddvMaskPixel b3 b4 b6 (ddvSWIRThreshold swirPercentile) = true ↔
      (b6 < max 30 swirPercentile ∧ b6 ≠ 0 ∧ (b4 - b3) / (b4 + b3) > 1 / 10)) ∧
    (∀ n ∈ clumpSizes, (n ∈ ddvKeptClumps clumpSizes ↔ 100 ≤ n)) := by
  have hmax : ddvSWIRThreshold swirPercentile = max 30 swirPercentile := by
    rw [ddvSWIRThreshold]
    by_cases h : swirPercentile > 30
    · rw [if_pos h, max_eq_right (le_of_lt h)]
    · rw [if_neg h, max_eq_left (le_of_not_lt h)]
  refine ⟨hmax, ?_, ?_⟩
  · rw [hmax]
    simp [ddvMaskPixel, and_assoc]
  · intro n hn
    simp [ddvKeptClumps, List.mem_filter, hn]

/-- Witness for C8 at a concrete pixel and clump-size list. -/
theorem ddv_target_selection_spec_witness :
    ddvSWIRThreshold 50 = max 30 50 ∧
    (ddvMaskPixel 100 200 20 (ddvSWIRThreshold 50) = true ↔
      ((20 : ℚ) < max 30 50 ∧ (20 : ℚ) ≠ 0 ∧
        ((200 : ℚ) - 100) / (200 + 100) > 1 / 10)) ∧
    (∀ n ∈ [50, 150], (n ∈ ddvKeptClumps [50, 150] ↔ 100 ≤ n)) :=
  ddv_target_selection_spec 50 100 200 20 [50, 150]

lemma processEntry_fst (ow : Bool) (ad cr : String → Bool) (acc : List String)
    (f : String) :
    (processEntry ow ad cr acc f).1
      = acc ++ if entryFails ow ad cr f then [f] else [] := by
  cases h1 : ow || !(ad f) <;> cases h2 : cr f <;>
    simp [processEntry, entryFails, h1, h2]

lemma runGoogleLoop_spec (ow : Bool) (ad cr : String → Bool) :
    ∀ fs acc : List String,
      (runGoogleLoop ow ad cr acc fs).1
        = acc ++ fs.filter (entryFails ow ad cr) ∧
      (runGoogleLoop ow ad cr acc fs).2
        = (List.range fs.length).map
            (fun i => acc ++ (fs.take (i + 1)).filter (entryFails ow ad cr)) := by
  intro fs
  induction fs with
  | nil => intro acc; simp [runGoogleLoop]
  | cons f rest ih =>
    intro acc
    obtain ⟨ih1, ih2⟩ := ih (processEntry ow ad cr acc f).1
    have hst := processEntry_fst ow ad cr acc f
    constructor
    · show (runGoogleLoop ow ad cr (processEntry ow ad cr acc f).1 rest).1 = _
      rw [ih1, hst, List.filter_cons]
      cases hp : entryFails ow ad cr f <;> simp [hp]
    · show (processEntry ow ad cr acc f).1
          :: (runGoogleLoop ow ad cr (processEntry ow ad cr acc f).1 rest).2 = _
      rw [ih2, hst, List.length_cons, List.range_succ_eq_map, List.map_cons,
        List.map_map]
      congr 1
      · rw [show (f :: rest).take 1 = [f] from rfl, List.filter_cons]
        cases hp : entryFails ow ad cr f <;> simp [hp]
      · refine List.map_congr_left ?_
        intro i _
        simp only [Function.comp_apply, Nat.succ_eq_add_one, List.take_succ_cons,
          List.filter_cons]
        cases hp : entryFails ow ad cr f <;> simp [hp]

/-- C9: In the download CLI, for every manifest entry: if the overwrite flag
is false and a file with the basename of the entry already exists in the
output directory, no copy command is invoked for that entry; otherwise a copy
command is invoked, and if it raises, the entry is appended to the failure
list; when a failure-list path is given, the failure-list file is rewritten
after each entry so it always contains all failures recorded so far. -/
theorem download_loop_spec (ow : Bool) (ad cr : String → Bool)
    (fs : List String) :
    (∀ (acc : List String) (f : String), ow = false → ad f = true →
      processEntry ow ad cr acc f = (acc, DwnldAction.skipped)) ∧
    (∀ (acc : List String) (f : String), ow = true ∨ ad f = false →
      (processEntry ow ad cr acc f).2 ≠ DwnldAction.skipped ∧
      (cr f = true →
        processEntry ow ad cr acc f = (acc ++ [f], DwnldAction.copyFailed)) ∧
      (cr f = false →
        processEntry ow ad cr acc f = (acc, DwnldAction.copied))) ∧
    (runGoogleImgDwbld ow ad cr fs).1 = fs.filter (entryFails ow ad cr) ∧
    (runGoogleImgDwbld ow ad cr fs).2.length = fs.length ∧
    (∀ i : ℕ, i < fs.length →
      (runGoogleImgDwbld ow ad cr fs).2[i]?
        = some ((fs.take (i + 1)).filter (entryFails ow ad cr))) := by
  obtain ⟨h1, h2⟩ := runGoogleLoop_spec ow ad cr fs []
  rw [List.nil_append] at h1
  refine ⟨?_, ?_, h1, ?_, ?_⟩
  · intro acc f how had
    simp [processEntry, how, had]
  · intro acc f h
    have hcond : (ow || !(ad f)) = true := by
      rcases h with h | h <;> simp [h]
    refine ⟨?_, ?_, ?_⟩
    · cases hc : cr f <;> simp [processEntry, hcond, hc]
    · intro hc; simp [processEntry, hcond, hc]
    · intro hc; simp [processEntry, hcond, hc]
  · show (runGoogleLoop ow ad cr [] fs).2.length = fs.length
    rw [h2, List.length_map, List.length_range]
  · intro i hi
    show (runGoogleLoop ow ad cr [] fs).2[i]? = _
    rw [h2]
    rw [List.getElem?_map, List.getElem?_range hi]
    simp

/-- Witness for C9 on a three-entry manifest with overwrite off: the first
entry is already downloaded (skipped), the copy of the second raises, the
copy of the third succeeds. -/
theorem download_loop_spec_witness :
    (∀ (acc : List String) (f : String), false = false →
      (fun g => g == "gs://b/x") f = true →
      processEntry false (fun g => g == "gs://b/x") (fun g => g == "gs://b/y")
        acc f = (acc, DwnldAction.skipped)) ∧
    (∀ (acc : List String) (f : String),
      false = true ∨ (fun g => g == "gs://b/x") f = false →
      (processEntry false (fun g => g == "gs://b/x") (fun g => g == "gs://b/y")
        acc f).2 ≠ DwnldAction.skipped ∧
      ((fun g => g == "gs://b/y") f = true →
        processEntry false (fun g => g == "gs://b/x") (fun g => g == "gs://b/y")
          acc f = (acc ++ [f], DwnldAction.copyFailed)) ∧
      ((fun g => g == "gs://b/y") f = false →
        processEntry false (fun g => g == "gs://b/x") (fun g => g == "gs://b/y")
          acc f = (acc, DwnldAction.copied))) ∧
    (runGoogleImgDwbld false (fun g => g == "gs://b/x") (fun g => g == "gs://b/y")
        ["gs://b/x", "gs://b/y", "gs://b/z"]).1
      = (["gs://b/x", "gs://b/y", "gs://b/z"]).filter
          (entryFails false (fun g => g == "gs://b/x") (fun g => g == "gs://b/y")) ∧
    (runGoogleImgDwbld false (fun g => g == "gs://b/x") (fun g => g == "gs://b/y")
        ["gs://b/x", "gs://b/y", "gs://b/z"]).2.length
      = (["gs://b/x", "gs://b/y", "gs://b/z"] : List String).length ∧
    (∀ i : ℕ, i < (["gs://b/x", "gs://b/y", "gs://b/z"] : List String).length →
      (runGoogleImgDwbld false (fun g => g == "gs://b/x") (fun g => g == "gs://b/y")
          ["gs://b/x", "gs://b/y", "gs://b/z"]).2[i]?
        = some (((["gs://b/x", "gs://b/y", "gs://b/z"]).take (i + 1)).filter
            (entryFails false (fun g => g == "gs://b/x")
              (fun g => g == "gs://b/y")))) :=
  download_loop_spec false (fun g => g == "gs://b/x") (fun g => g == "gs://b/y")
    ["gs://b/x", "gs://b/y", "gs://b/z"]

/-- C10: For the RapidEye and Landsat-2 MSS sensor classes,
estimateImageToAOD unconditionally prints "Not implemented" and exits the
process for every input; it never returns an AOD raster and never raises an
ARCSIException that a caller could catch. -/
theorem estimate_aod_not_implemented_exits
    (inputTOAImage outputPath outputName outFormat tmpPath aeroProfile
      atmosProfile grdRefl : String) (surfaceAltitude aotValMin aotValMax : ℚ) :
    rapideyeEstimateImageToAOD inputTOAImage outputPath outputName outFormat
        tmpPath aeroProfile atmosProfile grdRefl surfaceAltitude aotValMin
        aotValMax
      = (["Not implemented\n"], ProcOutcome.exits) ∧
    landsat2MSSEstimateImageToAOD inputTOAImage outputPath outputName outFormat
        tmpPath aeroProfile atmosProfile grdRefl surfaceAltitude aotValMin
        aotValMax
      = (["Not implemented\n"], ProcOutcome.exits) ∧
    (∀ raster : String,
      (rapideyeEstimateImageToAOD inputTOAImage outputPath outputName outFormat
          tmpPath aeroProfile atmosProfile grdRefl surfaceAltitude aotValMin
          aotValMax).2 ≠ ProcOutcome.returns raster ∧
      (landsat2MSSEstimateImageToAOD inputTOAImage outputPath outputName
          outFormat tmpPath aeroProfile atmosProfile grdRefl surfaceAltitude
          aotValMin aotValMax).2 ≠ ProcOutcome.returns raster) ∧
    (∀ msg : String,
      (rapideyeEstimateImageToAOD inputTOAImage outputPath outputName outFormat
          tmpPath aeroProfile atmosProfile grdRefl surfaceAltitude aotValMin
          aotValMax).2 ≠ ProcOutcome.raises msg ∧
      (landsat2MSSEstimateImageToAOD inputTOAImage outputPath outputName
          outFormat tmpPath aeroProfile atmosProfile grdRefl surfaceAltitude
          aotValMin aotValMax).2 ≠ ProcOutcome.raises msg) :=
  ⟨rfl, rfl,
    fun _ => ⟨fun h => ProcOutcome.noConfusion h, fun h => ProcOutcome.noConfusion h⟩,
    fun _ => ⟨fun h => ProcOutcome.noConfusion h, fun h => ProcOutcome.noConfusion h⟩⟩

/-- Witness for C10 at concrete arguments. -/
theorem estimate_aod_not_implemented_exits_witness :
    rapideyeEstimateImageToAOD "toa.kea" "out" "aod.kea" "KEA" "tmp" "aero"
        "atmos" "grd" 0 (1 / 20) (1 / 2)
      = (["Not implemented\n"], ProcOutcome.exits) ∧
    landsat2MSSEstimateImageToAOD "toa.kea" "out" "aod.kea" "KEA" "tmp" "aero"
        "atmos" "grd" 0 (1 / 20) (1 / 2)
      = (["Not implemented\n"], ProcOutcome.exits) ∧
    (∀ raster : String,
      (rapideyeEstimateImageToAOD "toa.kea" "out" "aod.kea" "KEA" "tmp" "aero"
          "atmos" "grd" 0 (1 / 20) (1 / 2)).2 ≠ ProcOutcome.returns raster ∧
      (landsat2MSSEstimateImageToAOD "toa.kea" "out" "aod.kea" "KEA" "tmp"
          "aero" "atmos" "grd" 0 (1 / 20) (1 / 2)).2
        ≠ ProcOutcome.returns raster) ∧
    (∀ msg : String,
      (rapideyeEstimateImageToAOD "toa.kea" "out" "aod.kea" "KEA" "tmp" "aero"
          "atmos" "grd" 0 (1 / 20) (1 / 2)).2 ≠ ProcOutcome.raises msg ∧
      (landsat2MSSEstimateImageToAOD "toa.kea" "out" "aod.kea" "KEA" "tmp"
          "aero" "atmos" "grd" 0 (1 / 20) (1 / 2)).2 ≠ ProcOutcome.raises msg) :=
  estimate_aod_not_implemented_exits "toa.kea" "out" "aod.kea" "KEA" "tmp"
    "aero" "atmos" "grd" 0 (1 / 20) (1 / 2)

end Arcsi
